import Mathlib

/-!
Verification development for the `py-maker` project-scaffolding generator.

The definitions below are a shallow embedding of `src/py_maker/pymaker.py`
(class `PyMaker`).  The target project directory is modelled as a finite
map from relative paths (lists of path segments, relative to
`choices.project_dir`) to nodes (directory or file-with-content).  Every
filesystem mutation also appends an event to a trace, so that theorems can
speak about *which* operations a run performed and in what order.

External collaborators (the Jinja2 renderer, the prompt library, PyPI
lookup, subprocess invocation, git) are modelled as oracle parameters:
pure functions supplied to the embedded code, exactly where the Python
code calls out to them.
-/

set_option autoImplicit false

namespace PyMakerModel

/-- A path relative to the project root, as a list of segments. -/
abbrev RPath := List String

/-- A filesystem node: a directory or a file with text content. -/
inductive Node where
  | dir : Node
  | file : String → Node
deriving DecidableEq

/-- The project directory tree: an association list from relative paths to
nodes.  The project root itself is implicit (always a directory). -/
abbrev FS := List (RPath × Node)

/-- Look up the node stored at path `p` (first binding wins). -/
def fsFind : FS → RPath → Option Node
  | [], _ => none
  | (k, v) :: rest, p => if k = p then some v else fsFind rest p

/-- Does any node exist at `p`? (`Path.exists`). -/
def fsExists (fs : FS) (p : RPath) : Bool :=
  (fsFind fs p).isSome

/-- Is the node at `p` a directory? (`Path.is_dir`). -/
def fsIsDir (fs : FS) (p : RPath) : Bool :=
  match fsFind fs p with
  | some .dir => true
  | _ => false

/-- Insert or replace the binding at `k`. -/
def fsInsert : FS → RPath → Node → FS
  | [], k, v => [(k, v)]
  | (k0, v0) :: rest, k, v =>
      if k0 = k then (k, v) :: rest else (k0, v0) :: fsInsert rest k v

/-- `isUnder p root` holds when `p` is `root` itself or lies below it. -/
def isUnder : RPath → RPath → Bool
  | _, [] => true
  | [], _ :: _ => false
  | a :: as, r :: rs => a = r && isUnder as rs

/-- Remove the subtree rooted at `root` (`shutil.rmtree` effect). -/
def fsRemoveTree (fs : FS) (root : RPath) : FS :=
  fs.filter (fun e => !(isUnder e.1 root))

/-- Move the subtree rooted at `src` to `dst` (`Path.rename` effect). -/
def fsRenameTree (fs : FS) (src dst : RPath) : FS :=
  fs.map (fun e => if isUnder e.1 src then (dst ++ e.1.drop src.length, e.2) else e)

/-- The parent of `p` exists (the root `[]` always does). -/
def parentOk (fs : FS) (p : RPath) : Bool :=
  p.dropLast.isEmpty || fsIsDir fs p.dropLast

/-- Kinds of `OSError` the modelled filesystem operations can raise, plus
the Jinja `TemplateNotFound` exception, which is *not* an `OSError` and
therefore escapes the `except OSError` handler in `generate_template`. -/
inductive OSErr where
  | fileExists
  | fileNotFound
  | notADirectory
  | isADirectory
  | templateNotFound
deriving DecidableEq

/-- Modelled from the spec: the `ExitErrors` enumeration lives in
`py_maker/constants.py`, which is not part of the provided sources; the
spec requires a distinct, stable exit code per failure cause, so the codes
are modelled as distinct constructors. -/
inductive ExitErrors where
  | LOCATION_ERROR
  | DIRECTORY_EXISTS
  | PERMISSION_DENIED
  | FOLDER_NOT_EMPTY
  | OS_ERROR
  | GIT_ERROR
  | USER_ABORT
deriving DecidableEq

/-- How a run can end abnormally: a `sys.exit` with a code, an uncaught
exception (crash), a failed checked subprocess, or an endless prompt loop
(the user never supplies an acceptable answer). -/
inductive Failure where
  | exited (code : ExitErrors)
  | crashed (e : OSErr)
  | procFailed (cmd : String)
  | hung
deriving DecidableEq

/-- The process working directory: the invocation directory or the newly
created project directory (after `os.chdir`). -/
inductive Cwd where
  | original
  | project
deriving DecidableEq

/-- Observable events of a run, in order of occurrence.  Subprocess and
git events record the working directory they execute in. -/
inductive Ev where
  | mkdir (p : RPath)
  | write (p : RPath)
  | rename (src dst : RPath)
  | rmtree (p : RPath)
  | chdir (dest : Cwd)
  | proc (cmd : String) (cwd : Cwd)
  | gitInit (cwd : Cwd)
deriving DecidableEq

/-- Mutable state threaded through a run: the project tree, the event
trace, and the process working directory. -/
structure St where
  fs : FS
  trace : List Ev
  cwd : Cwd
deriving DecidableEq

/-- `Path.mkdir()`: fails if the path exists (`FileExistsError`) or its
parent is missing (`FileNotFoundError`). -/
def stMkdir (p : RPath) (st : St) : Except OSErr St :=
  if fsExists st.fs p then .error .fileExists
  else if !(parentOk st.fs p) then .error .fileNotFound
  else .ok { st with fs := fsInsert st.fs p .dir, trace := st.trace ++ [Ev.mkdir p] }

/-- `Path.write_text`: overwrites an existing file, fails on a directory
(`IsADirectoryError`) or a missing parent. -/
def stWrite (p : RPath) (content : String) (st : St) : Except OSErr St :=
  if fsIsDir st.fs p then .error .isADirectory
  else if !(parentOk st.fs p) then .error .fileNotFound
  else .ok { st with fs := fsInsert st.fs p (.file content), trace := st.trace ++ [Ev.write p] }

/-- `Path.rename`: fails when the source is missing, when the destination
already exists (model choice: renaming onto an existing path is treated
as an error), or when the destination parent is missing. -/
def stRename (src dst : RPath) (st : St) : Except OSErr St :=
  if !(fsExists st.fs src) then .error .fileNotFound
  else if fsExists st.fs dst then .error .fileExists
  else if !(parentOk st.fs dst) then .error .fileNotFound
  else .ok { st with fs := fsRenameTree st.fs src dst, trace := st.trace ++ [Ev.rename src dst] }

/-- `shutil.rmtree`: fails when the path is missing (`FileNotFoundError`)
or is not a directory (`NotADirectoryError`). -/
def stRmtree (p : RPath) (st : St) : Except OSErr St :=
  if !(fsExists st.fs p) then .error .fileNotFound
  else if !(fsIsDir st.fs p) then .error .notADirectory
  else .ok { st with fs := fsRemoveTree st.fs p, trace := st.trace ++ [Ev.rmtree p] }

/-- `os.chdir` to the project directory (always succeeds in the model). -/
def stChdir (c : Cwd) (st : St) : St :=
  { st with cwd := c, trace := st.trace ++ [Ev.chdir c] }

/-!
### `pathlib` suffix semantics

`Path.suffix` returns the final extension of the last component: the text
from the last dot, provided that dot is neither the first nor the last
character of the name (so `".jinja"` and `"a."` have no suffix).
`Path.with_suffix("")` strips exactly that suffix.
-/

/-- The `pathlib` suffix of a name, as a character list. -/
def pySuffixL (l : List Char) : List Char :=
  match l.reverse.findIdx? (fun c => c = '.') with
  | none => []
  | some j => if 0 < j ∧ j < l.length - 1 then (l.reverse.take (j + 1)).reverse else []

/-- `Path(name).suffix`. -/
def pySuffix (s : String) : String :=
  String.mk (pySuffixL s.toList)

/-- `Path(name).with_suffix("")`. -/
def stripPySuffix (s : String) : String :=
  String.mk (s.toList.take (s.toList.length - (pySuffixL s.toList).length))

/-- The last segment of a relative path (`Path.name`). -/
def lastSeg (p : RPath) : String :=
  p.getLast?.getD ""

/-- `Path(file).with_suffix("")` applied to the last segment of a
relative path. -/
def stripJinja (p : RPath) : RPath :=
  p.dropLast ++ [stripPySuffix (lastSeg p)]

example : pySuffix "README.md.jinja" = ".jinja" := by decide
example : pySuffix ".jinja" = "" := by decide
example : pySuffix "main.py" = ".py" := by decide
example : stripPySuffix "README.md.jinja" = "README.md" := by decide
example : stripJinja ["docs", "index.md.jinja"] = ["docs", "index.md"] := by decide

/-!
### Configuration data (`py_maker/schema.py` `ProjectValues`, options dict,
`py_maker/config/settings.py` `Settings`)
-/

/-- The configuration value set (`ProjectValues`).  `project_dir` is
`Path.cwd() / location`; since the model works relative to the project
root, only its leaf name (the location) is carried, as `slug`. -/
structure Choices where
  name : String
  package_name : String
  description : String
  author : String
  email : String
  homepage : String
  repository : String
  license : String
  standalone : Bool
  slug : String
deriving DecidableEq

/-- The boolean options dict handed to `PyMaker.__init__`. -/
structure Options where
  test : Bool
  git : Bool
  accept_defaults : Bool
  docs : Bool
deriving DecidableEq

/-- Modelled from the spec: the persisted `Settings` object
(`py_maker/config/settings.py`, not part of the provided sources); only
the fields `pymaker.py` reads are carried. -/
structure Settings where
  use_default_template : Bool
  author_name : String
  author_email : String
  default_license : String
deriving DecidableEq

/-- A custom template source: its directory tree, its enumerated entry
list (modelled from the spec: `helpers.get_file_list` is not part of the
provided sources, so enumeration results are taken as input), and the
Jinja renderer for its templates (an external oracle, with the rendering
context already applied). -/
structure CustomSrc where
  cfs : FS
  entries : List RPath
  render : RPath → String

/-!
### `PyMaker.copy_files` (pymaker.py lines 96-124)
-/

/-- The body of the `for file in file_list` loop in `copy_files`:
directories are created, `.jinja` files are rendered and written with the
suffix stripped, and everything else is copied verbatim
(`read_text`/`write_text`).  A missing `.jinja` source makes
`jinja_env.get_template` raise `TemplateNotFound`. -/
def copy_one (tmpl : FS) (render : RPath → String) (f : RPath) (st : St) : Except OSErr St :=
  if fsIsDir tmpl f then
    stMkdir f st
  else if pySuffix (lastSeg f) = ".jinja" then
    if fsExists tmpl f then stWrite (stripJinja f) (render f) st
    else .error .templateNotFound
  else
    match fsFind tmpl f with
    | some (.file content) => stWrite f content st
    | some .dir => .error .isADirectory
    | none => .error .fileNotFound

/-- `PyMaker.copy_files`: process the enumerated entries in order,
stopping at the first failure. -/
def copy_files (tmpl : FS) (render : RPath → String) : List RPath → St → Except OSErr St
  | [], st => .ok st
  | f :: rest, st =>
      match copy_one tmpl render f st with
      | .ok st1 => copy_files tmpl render rest st1
      | .error e => .error e

/-!
### `PyMaker.generate_template` (pymaker.py lines 126-182)
-/

/-- The license-emission block of `generate_template` (lines 149-163):
skipped when `choices.license == "None"`, otherwise the license template
named by the license identifier is rendered with the author and the
current year and written to `LICENSE.txt` at the project root.
`licRender` is the Jinja oracle (license id, author, year). -/
def emit_license (c : Choices) (licRender : String → String → Nat → String)
    (year : Nat) (st : St) : Except OSErr St :=
  if c.license ≠ "None" then
    stWrite ["LICENSE.txt"] (licRender c.license c.author year) st
  else
    .ok st

/-- The rename-or-delete block of `generate_template` (lines 166-175):
a non-sentinel `package_name` renames the placeholder `app` folder, the
sentinel `"-"` hoists `app/main.py` to the root and removes `app`. -/
def restructure (c : Choices) (st : St) : Except OSErr St :=
  if c.package_name ≠ "-" then
    stRename ["app"] [c.package_name] st
  else do
    let st1 ← stRename ["app", "main.py"] ["main.py"] st
    stRmtree ["app"] st1

/-- The tests-folder block of `generate_template` (lines 177-179):
`shutil.rmtree` is called unconditionally when the `test` option is
false. -/
def remove_tests (opts : Options) (st : St) : Except OSErr St :=
  if !opts.test then stRmtree ["tests"] st else .ok st

/-- How an exception raised inside the `try` block of `generate_template`
surfaces: any `OSError` is caught and turned into `sys.exit(OS_ERROR)`;
Jinja `TemplateNotFound` is not an `OSError` and crashes the process. -/
def toFailure : OSErr → Failure
  | .templateNotFound => .crashed .templateNotFound
  | _ => .exited (.OS_ERROR)

/-- Lift a filesystem step into the run monad, recording the state at the
moment of failure. -/
def liftE (step : St → Except OSErr St) (st : St) : Except (Failure × St) St :=
  match step st with
  | .ok st1 => .ok st1
  | .error e => .error (toFailure e, st)

/-- `PyMaker.generate_template`: copy the default template source when
`settings.use_default_template` is set, then the custom source when its
directory exists (`custom = some _`; `none` models a missing
`settings.template_folder`), then emit the license, restructure the
placeholder `app` folder, and remove the tests folder if unwanted. -/
def generate_template (s : Settings) (c : Choices) (opts : Options)
    (tmplFS : FS) (tmplList : List RPath) (renderD : RPath → String)
    (custom : Option CustomSrc)
    (licRender : String → String → Nat → String) (year : Nat)
    (st : St) : Except (Failure × St) St := do
  let st1 ← if s.use_default_template then liftE (copy_files tmplFS renderD tmplList) st
            else pure st
  let st2 ← match custom with
            | some cs => liftE (copy_files cs.cfs cs.render cs.entries) st1
            | none => pure st1
  let st3 ← liftE (emit_license c licRender year) st2
  let st4 ← liftE (restructure c) st3
  liftE (remove_tests opts) st4

/-!
### `PyMaker.create_folders` (pymaker.py lines 73-91)
-/

/-- Possible outcomes of the `project_dir.mkdir()` call on the host
filesystem (outside the modelled project tree). -/
inductive MkdirOutcome where
  | ok
  | alreadyExists
  | permissionDenied
deriving DecidableEq

/-- `PyMaker.create_folders`: `mkdir` is attempted only when the location
is not `"."`; `FileExistsError` exits with `DIRECTORY_EXISTS` and
`PermissionError` with `PERMISSION_DENIED`. -/
def create_folders (loc : String) (o : MkdirOutcome) : Except Failure Unit :=
  if loc ≠ "." then
    match o with
    | .ok => .ok ()
    | .alreadyExists => .error (.exited .DIRECTORY_EXISTS)
    | .permissionDenied => .error (.exited .PERMISSION_DENIED)
  else
    .ok ()

/-!
### `PyMaker.get_sanitized_package_name` (pymaker.py lines 227-264)
-/

/-- One round of the package-name prompt: the answer the user types, and
the answer they would give to the "use it anyway?" confirmation if the
name exists on PyPI. -/
structure PkgResp where
  name : String
  useAnyway : Bool
deriving DecidableEq

/-- The character class of `re.search(r"[- .]", name)`: a dash, a space
or a dot. -/
def hasForbiddenChar (n : String) : Bool :=
  n.toList.any (fun ch => ch == '-' || ch == '.' || ch == ' ')

/-- `PyMaker.get_sanitized_package_name`: loop until an answer is
accepted.  Returns the accepted name together with the standalone flag
set by the `"-"` branch; `none` when the supplied answers run out (the
real loop would keep prompting forever). -/
def get_sanitized_package_name (pypi : String → Bool) :
    List PkgResp → Option (String × Bool)
  | [] => none
  | r :: rest =>
      if r.name == "-" then some (r.name, true)
      else if !hasForbiddenChar r.name then
        if pypi r.name then
          if r.useAnyway then some (r.name, false)
          else get_sanitized_package_name pypi rest
        else some (r.name, false)
      else get_sanitized_package_name pypi rest

/-!
### `PyMaker.run` (pymaker.py lines 269-379)
-/

/-- Resolved answers of the interactive wizard (an external collaborator):
what each `Prompt.ask` call in the non-defaults branch of `run` returns. -/
structure Answers where
  name : String
  pkgResponses : List PkgResp
  homepage : String
  repository : String
  description : String
  author : String
  email : String
  license : String
deriving DecidableEq

/-- All inputs of a run: the CLI arguments, the persisted settings, the
wizard answers and confirmations, the host-filesystem outcome of the
project-root `mkdir`, the two template sources with their Jinja oracles,
and the outcomes of the external subprocess / git calls. -/
structure RunEnv where
  loc : String
  opts : Options
  settings : Settings
  pypi : String → Bool
  answers : Answers
  confirmValues : Bool
  mkdirOutcome : MkdirOutcome
  tmplFS : FS
  tmplList : List RPath
  renderD : RPath → String
  custom : Option CustomSrc
  licRender : String → String → Nat → String
  year : Nat
  getTitle : String → String
  sanitize : String → String
  confirmInstall : Bool
  confirmPrecommit : Bool
  procOk : String → Bool
  gitOk : Bool
  mkdocsContent : String → String

/-- The configuration-gathering part of `run` (lines 289-344): either the
defaults path (fields copied from settings) or the prompt path followed
by the confirmation, which exits with `USER_ABORT` when declined.
`getTitle` and `sanitize` model `helpers.get_title` / `helpers.sanitize`
(helpers.py is not part of the provided sources). -/
def resolveChoices (env : RunEnv) : Except Failure Choices :=
  if env.opts.accept_defaults then
    .ok { name := env.getTitle env.loc
          package_name := env.sanitize env.loc
          description := ""
          author := env.settings.author_name
          email := env.settings.author_email
          homepage := ""
          repository := ""
          license := env.settings.default_license
          standalone := false
          slug := env.loc }
  else
    match get_sanitized_package_name env.pypi env.answers.pkgResponses with
    | none => .error .hung
    | some (pn, sa) =>
        let c : Choices :=
          { name := env.answers.name
            package_name := pn
            description := env.answers.description
            author := env.answers.author
            email := env.answers.email
            homepage := if sa then "" else env.answers.homepage
            repository := if sa then "" else env.answers.repository
            license := env.answers.license
            standalone := sa
            slug := env.loc }
        if env.confirmValues then .ok c
        else .error (.exited .USER_ABORT)

/-- A `subprocess.run([...], check=True)` call: a non-zero exit status
raises `CalledProcessError`, which nothing in `run` catches. -/
def stProcE (procOk : String → Bool) (cmd : String) (st : St) :
    Except (Failure × St) St :=
  if procOk cmd then .ok { st with trace := st.trace ++ [Ev.proc cmd st.cwd] }
  else .error (.procFailed cmd, st)

/-- Lift a filesystem step whose failure is an uncaught exception (the
`mkdocs.yml` write in `run` sits outside every `try` block). -/
def liftC (step : St → Except OSErr St) (st : St) : Except (Failure × St) St :=
  match step st with
  | .ok st1 => .ok st1
  | .error e => .error (.crashed e, st)

/-- The body of the poetry-install block of `run` (lines 353-376), after
the `os.chdir`: `poetry install`, then the optional MkDocs bootstrap and
custom `mkdocs.yml`, then the optional pre-commit installation. -/
def install_steps (opts : Options) (confirmPrecommit : Bool)
    (procOk : String → Bool) (mkdocs : String) (st : St) :
    Except (Failure × St) St :=
  stProcE procOk "poetry install" st >>= fun st1 =>
  (if opts.docs then
      stProcE procOk "poetry run mkdocs new ." st1 >>=
        liftC (stWrite ["mkdocs.yml"] mkdocs)
    else pure st1) >>= fun st2 =>
  (if confirmPrecommit then
      stProcE procOk "poetry run pre-commit install" st2 >>=
        stProcE procOk "poetry run pre-commit autoupdate"
    else pure st2)

/-- `PyMaker.create_git_repo` (lines 187-199): guarded by the `git`
option; a `GitError` exits with `GIT_ERROR`. -/
def create_git_repo (opts : Options) (gitOk : Bool) (st : St) :
    Except (Failure × St) St :=
  if opts.git then
    let st1 := { st with trace := st.trace ++ [Ev.gitInit st.cwd] }
    if gitOk then .ok st1 else .error (.exited .GIT_ERROR, st1)
  else .ok st

/-- The tail of `run` (lines 349-379): the poetry-install block runs when
defaults are accepted or the user confirms, and begins with
`os.chdir(project_dir)`; the git-repository step follows
unconditionally. -/
def run_finish (opts : Options) (confirmInstall confirmPrecommit : Bool)
    (procOk : String → Bool) (gitOk : Bool) (mkdocs : String) (st : St) :
    Except (Failure × St) St := do
  let st1 ← if opts.accept_defaults || confirmInstall then
      install_steps opts confirmPrecommit procOk mkdocs (stChdir .project st)
    else pure st
  create_git_repo opts gitOk st1

/-- `PyMaker.run`.  `initFS` is the state of the target directory at
invocation: `none` when it does not exist, `some fs` when it exists with
entries `fs`.  The result pairs an optional failure with the final state
of the target tree and trace. -/
def run (env : RunEnv) (initFS : Option FS) : Option Failure × St :=
  let st0 : St := ⟨initFS.getD [], [], .original⟩
  -- lines 274-282: ensure that the chosen location is empty
  if (match initFS with
      | some fs => decide (0 < fs.length)
      | none => false) then
    (some (.exited .FOLDER_NOT_EMPTY), st0)
  else
    match resolveChoices env with
    | .error f => (some f, st0)
    | .ok c =>
        match create_folders env.loc env.mkdirOutcome with
        | .error f => (some f, st0)
        | .ok _ =>
            match generate_template env.settings c env.opts env.tmplFS
                env.tmplList env.renderD env.custom env.licRender env.year st0 with
            | .error (f, st) => (some f, st)
            | .ok st =>
                match run_finish env.opts env.confirmInstall
                    env.confirmPrecommit env.procOk env.gitOk
                    (env.mkdocsContent c.name) st with
                | .error (f, st2) => (some f, st2)
                | .ok st2 => (none, st2)

/-!
### Vocabulary for the theorems: the outcome the spec ascribes to each
operation, as observable data.
-/

/-- The destination path the spec ascribes to template entry `f`:
unchanged for directories and static files, suffix-stripped for template
files. -/
def copyDest (tmpl : FS) (f : RPath) : RPath :=
  if fsIsDir tmpl f then f
  else if pySuffix (lastSeg f) = ".jinja" then stripJinja f
  else f

/-- The content of a static file in the template source. -/
def tmplContent (tmpl : FS) (f : RPath) : String :=
  match fsFind tmpl f with
  | some (.file s) => s
  | _ => ""

/-- The node the spec ascribes to template entry `f` after copying:
a directory, the rendered text of a template file, or the verbatim bytes
of a static file. -/
def copyProduct (tmpl : FS) (render : RPath → String) (f : RPath) : Node :=
  if fsIsDir tmpl f then .dir
  else if pySuffix (lastSeg f) = ".jinja" then .file (render f)
  else .file (tmplContent tmpl f)

/-- The events of the rename outcome of restructuring: the placeholder
`app` folder is renamed to the package name. -/
def renameEvs (c : Choices) : List Ev :=
  [Ev.rename ["app"] [c.package_name]]

/-- The events of the hoist outcome of restructuring: `app/main.py` moves
to the project root and the `app` folder is deleted recursively. -/
def hoistEvs : List Ev :=
  [Ev.rename ["app", "main.py"] ["main.py"], Ev.rmtree ["app"]]

/-- The working directory an event executes in, when it records one. -/
def evCwd : Ev → Option Cwd
  | .proc _ cwd => some cwd
  | .gitInit cwd => some cwd
  | _ => none

/-- Is an event a change of working directory? -/
def isChdirEv : Ev → Bool
  | .chdir _ => true
  | _ => false

/-- The exit code of a run of `generate_template`, when it ended in
`sys.exit`. -/
def exitCodeOfR (r : Except (Failure × St) St) : Option ExitErrors :=
  match r with
  | .error (.exited code, _) => some code
  | _ => none

/-- Did a pipeline step succeed? -/
def isOkE {ε α : Type} (r : Except ε α) : Bool :=
  match r with
  | .ok _ => true
  | .error _ => false

/-!
### Helper lemmas
-/

theorem fsFind_insert_self (fs : FS) (k : RPath) (v : Node) :
    fsFind (fsInsert fs k v) k = some v := by
  induction fs with
  | nil => simp [fsInsert, fsFind]
  | cons e rest ih =>
      obtain ⟨k0, v0⟩ := e
      by_cases he : k0 = k
      · simp [fsInsert, he, fsFind]
      · simp [fsInsert, he, fsFind, ih]

theorem fsFind_insert_ne (fs : FS) (k : RPath) (v : Node) (p : RPath)
    (hne : p ≠ k) : fsFind (fsInsert fs k v) p = fsFind fs p := by
  have hkp : k ≠ p := fun h => hne h.symm
  induction fs with
  | nil => simp [fsInsert, fsFind, hkp]
  | cons e rest ih =>
      obtain ⟨k0, v0⟩ := e
      by_cases he : k0 = k
      · subst he
        simp [fsInsert, fsFind, hkp]
      · simp [fsInsert, he, fsFind, ih]

theorem stMkdir_ok {p : RPath} {st st' : St} (h : stMkdir p st = .ok st') :
    st'.fs = fsInsert st.fs p .dir ∧ st'.trace = st.trace ++ [Ev.mkdir p] ∧
      st'.cwd = st.cwd := by
  unfold stMkdir at h
  split at h
  · exact absurd h (by simp)
  · split at h
    · exact absurd h (by simp)
    · cases h
      exact ⟨rfl, rfl, rfl⟩

theorem stWrite_ok {p : RPath} {content : String} {st st' : St}
    (h : stWrite p content st = .ok st') :
    st'.fs = fsInsert st.fs p (.file content) ∧
      st'.trace = st.trace ++ [Ev.write p] ∧ st'.cwd = st.cwd := by
  unfold stWrite at h
  split at h
  · exact absurd h (by simp)
  · split at h
    · exact absurd h (by simp)
    · cases h
      exact ⟨rfl, rfl, rfl⟩

theorem stRename_ok {src dst : RPath} {st st' : St}
    (h : stRename src dst st = .ok st') :
    st'.fs = fsRenameTree st.fs src dst ∧
      st'.trace = st.trace ++ [Ev.rename src dst] ∧ st'.cwd = st.cwd := by
  unfold stRename at h
  split at h
  · exact absurd h (by simp)
  · split at h
    · exact absurd h (by simp)
    · split at h
      · exact absurd h (by simp)
      · cases h
        exact ⟨rfl, rfl, rfl⟩

theorem stRmtree_ok {p : RPath} {st st' : St}
    (h : stRmtree p st = .ok st') :
    st'.fs = fsRemoveTree st.fs p ∧
      st'.trace = st.trace ++ [Ev.rmtree p] ∧ st'.cwd = st.cwd := by
  unfold stRmtree at h
  split at h
  · exact absurd h (by simp)
  · split at h
    · exact absurd h (by simp)
    · cases h
      exact ⟨rfl, rfl, rfl⟩

/-- A successful `copy_one` writes exactly the node the spec ascribes to
the entry at its destination. -/
theorem copy_one_ok_fs {tmpl : FS} {r : RPath → String} {f : RPath}
    {st st' : St} (h : copy_one tmpl r f st = .ok st') :
    st'.fs = fsInsert st.fs (copyDest tmpl f) (copyProduct tmpl r f) := by
  unfold copy_one at h
  split at h
  · rename_i hd
    rw [(stMkdir_ok h).1]
    simp [copyDest, copyProduct, hd]
  · rename_i hd
    split at h
    · rename_i hj
      split at h
      · rw [(stWrite_ok h).1]
        simp [copyDest, copyProduct, hd, hj]
      · exact absurd h (by simp)
    · rename_i hj
      split at h
      · rename_i content hfind
        rw [(stWrite_ok h).1]
        simp [copyDest, copyProduct, tmplContent, hd, hj, hfind]
      · exact absurd h (by simp)
      · exact absurd h (by simp)

/-- A successful `copy_files` leaves every path that is not the
destination of any processed entry untouched. -/
theorem copy_files_frame {tmpl : FS} {r : RPath → String} {fl : List RPath}
    {st st' : St} (h : copy_files tmpl r fl st = .ok st') {p : RPath}
    (hp : ∀ f ∈ fl, copyDest tmpl f ≠ p) :
    fsFind st'.fs p = fsFind st.fs p := by
  induction fl generalizing st with
  | nil =>
      unfold copy_files at h
      cases h
      rfl
  | cons f rest ih =>
      unfold copy_files at h
      split at h
      · rename_i st1 h1
        have hrest := ih h (fun g hg => hp g (List.mem_cons_of_mem f hg))
        rw [hrest, copy_one_ok_fs h1,
          fsFind_insert_ne _ _ _ _ (fun he => hp f (List.mem_cons_self f rest) he.symm)]
      · exact absurd h (by simp)

/-- After a successful `copy_files`, an entry that is the last writer of
its destination is found there with exactly the node the spec ascribes
to it. -/
theorem copy_files_lookup {tmpl : FS} {r : RPath → String}
    {l1 l2 : List RPath} {f : RPath} {st st' : St}
    (h : copy_files tmpl r (l1 ++ f :: l2) st = .ok st')
    (hl : ∀ g ∈ l2, copyDest tmpl g ≠ copyDest tmpl f) :
    fsFind st'.fs (copyDest tmpl f) = some (copyProduct tmpl r f) := by
  induction l1 generalizing st with
  | nil =>
      rw [List.nil_append] at h
      unfold copy_files at h
      split at h
      · rename_i st1 h1
        rw [copy_files_frame h hl, copy_one_ok_fs h1, fsFind_insert_self]
      · exact absurd h (by simp)
  | cons a l1 ih =>
      rw [List.cons_append] at h
      unfold copy_files at h
      split at h
      · exact ih h
      · exact absurd h (by simp)

/-- A successful restructuring appends the events of the branch chosen by
`package_name`. -/
theorem restructure_ok_trace {c : Choices} {st st' : St}
    (h : restructure c st = .ok st') :
    st'.trace = st.trace ++ (if c.package_name = "-" then hoistEvs else renameEvs c) := by
  unfold restructure at h
  split at h
  · rename_i hpn
    rw [(stRename_ok h).2.1]
    simp [renameEvs, hpn]
  · rename_i hpn
    have hpn2 : c.package_name = "-" := not_not.mp hpn
    simp only [bind, Except.bind] at h
    cases e1 : stRename ["app", "main.py"] ["main.py"] st with
    | error e => rw [e1] at h; cases h
    | ok st1 =>
        rw [e1] at h
        rw [(stRmtree_ok h).2.1, (stRename_ok e1).2.1]
        simp [hoistEvs, hpn2]

theorem stProcE_ok {procOk : String → Bool} {cmd : String} {st st' : St}
    (h : stProcE procOk cmd st = .ok st') :
    st' = { st with trace := st.trace ++ [Ev.proc cmd st.cwd] } := by
  unfold stProcE at h
  split at h
  · cases h; rfl
  · exact absurd h (by simp)

theorem liftC_ok {step : St → Except OSErr St} {st st' : St}
    (h : liftC step st = .ok st') : step st = .ok st' := by
  unfold liftC at h
  split at h
  · rename_i st1 heq
    cases h
    exact heq
  · exact absurd h (by simp)

theorem liftE_ok {step : St → Except OSErr St} {st st' : St}
    (h : liftE step st = .ok st') : step st = .ok st' := by
  unfold liftE at h
  split at h
  · rename_i st1 heq
    cases h
    exact heq
  · exact absurd h (by simp)

/-- An event that a step of the post-generation phase may emit without
contradicting the claim: not a change of directory, and tagged with the
project directory when it records a working directory at all. -/
def GoodEv (e : Ev) : Prop :=
  isChdirEv e = false ∧ (evCwd e = none ∨ evCwd e = some Cwd.project)

/-- A step preserves "the working directory is the project directory" and
only appends `GoodEv` events. -/
def CwdPres (step : St → Except (Failure × St) St) : Prop :=
  ∀ st st', st.cwd = Cwd.project → step st = .ok st' →
    st'.cwd = Cwd.project ∧ ∃ evs, st'.trace = st.trace ++ evs ∧ ∀ e ∈ evs, GoodEv e

theorem cwdPres_stProcE (procOk : String → Bool) (cmd : String) :
    CwdPres (stProcE procOk cmd) := by
  intro st st' hc h
  have he := stProcE_ok h
  subst he
  refine ⟨hc, [Ev.proc cmd st.cwd], rfl, ?_⟩
  intro e he
  simp only [List.mem_singleton] at he
  subst he
  exact ⟨rfl, Or.inr (by simp [evCwd, hc])⟩

theorem cwdPres_write (p : RPath) (content : String) :
    CwdPres (liftC (stWrite p content)) := by
  intro st st' hc h
  obtain ⟨-, ht, hcwd⟩ := stWrite_ok (liftC_ok h)
  refine ⟨hcwd.trans hc, [Ev.write p], ht, ?_⟩
  intro e he
  simp only [List.mem_singleton] at he
  subst he
  exact ⟨rfl, Or.inl rfl⟩

theorem cwdPres_pure : CwdPres (fun st => pure st) := by
  intro st st' hc h
  cases h
  exact ⟨hc, [], by simp, by simp⟩

theorem cwdPres_bind {s1 s2 : St → Except (Failure × St) St}
    (h1 : CwdPres s1) (h2 : CwdPres s2) :
    CwdPres (fun st => s1 st >>= s2) := by
  intro st st' hc h
  simp only [bind, Except.bind] at h
  cases e1 : s1 st with
  | error f => rw [e1] at h; cases h
  | ok st1 =>
      rw [e1] at h
      obtain ⟨hc1, evs1, ht1, hg1⟩ := h1 st st1 hc e1
      obtain ⟨hc2, evs2, ht2, hg2⟩ := h2 st1 st' hc1 h
      refine ⟨hc2, evs1 ++ evs2, by rw [ht2, ht1, List.append_assoc], ?_⟩
      intro e he
      rcases List.mem_append.mp he with hm | hm
      · exact hg1 e hm
      · exact hg2 e hm

theorem cwdPres_ite {b : Bool} {s1 s2 : St → Except (Failure × St) St}
    (h1 : CwdPres s1) (h2 : CwdPres s2) :
    CwdPres (fun st => if b then s1 st else s2 st) := by
  cases b
  · simpa using h2
  · simpa using h1

/-- The whole poetry-install block preserves the project working
directory and never changes directory again. -/
theorem cwdPres_install_steps (opts : Options) (cp : Bool)
    (procOk : String → Bool) (mkdocs : String) :
    CwdPres (install_steps opts cp procOk mkdocs) := by
  unfold install_steps
  exact cwdPres_bind (cwdPres_stProcE _ _)
    (cwdPres_bind
      (cwdPres_ite
        (cwdPres_bind (cwdPres_stProcE _ _) (cwdPres_write _ _))
        cwdPres_pure)
      (cwdPres_ite
        (cwdPres_bind (cwdPres_stProcE _ _) (cwdPres_stProcE _ _))
        cwdPres_pure))

theorem fsExists_of_isDir {fs : FS} {p : RPath} (h : fsIsDir fs p = true) :
    fsExists fs p = true := by
  unfold fsIsDir at h
  unfold fsExists
  split at h
  · rename_i heq
    rw [heq]
    rfl
  · cases h

theorem fsFind_removeTree_none {fs : FS} {root p : RPath}
    (h : isUnder p root = true) : fsFind (fsRemoveTree fs root) p = none := by
  induction fs with
  | nil => rfl
  | cons e rest ih =>
      obtain ⟨k, v⟩ := e
      by_cases hk : isUnder k root = true
      · simpa [fsRemoveTree, hk] using ih
      · have hkp : ¬(k = p) := fun he => hk (he ▸ h)
        simpa [fsRemoveTree, hk, fsFind, hkp] using ih

/-- A concrete run environment used by witnesses. -/
def sampleEnv : RunEnv where
  loc := "proj"
  opts := ⟨true, false, true, false⟩
  settings := ⟨true, "Ann", "ann@example.com", "MIT"⟩
  pypi := fun _ => false
  answers := ⟨"Name", [], "", "", "", "", "", "MIT"⟩
  confirmValues := true
  mkdirOutcome := .ok
  tmplFS := [(["app"], .dir), (["app", "main.py"], .file "m")]
  tmplList := [["app"], ["app", "main.py"]]
  renderD := fun _ => ""
  custom := none
  licRender := fun _ _ _ => "lic"
  year := 2024
  getTitle := fun s => s
  sanitize := fun s => s
  confirmInstall := true
  confirmPrecommit := true
  procOk := fun _ => true
  gitOk := true
  mkdocsContent := fun _ => "cfg"

/-!
### Claims
-/

/-- C1: a run whose target directory exists and contains at least one
entry terminates at the validation step with the `FOLDER_NOT_EMPTY` exit
signal, performs zero filesystem operations (empty trace), and leaves the
target's original contents unchanged. -/
theorem C1_nonempty_target_aborts_unchanged (env : RunEnv) (fs0 : FS)
    (h : 0 < fs0.length) :
    run env (some fs0) =
      (some (.exited .FOLDER_NOT_EMPTY), ⟨fs0, [], .original⟩) := by
  unfold run
  simp [h]

theorem C1_witness :
    0 < ([(["f.txt"], Node.file "x")] : FS).length ∧
      run sampleEnv (some [(["f.txt"], Node.file "x")]) =
        (some (.exited .FOLDER_NOT_EMPTY),
          ⟨[(["f.txt"], Node.file "x")], [], .original⟩) :=
  ⟨by decide, C1_nonempty_target_aborts_unchanged sampleEnv _ (by decide)⟩

/-- C2: a run that completes the restructuring step performs exactly one
of the two outcomes: the placeholder `app` folder is renamed to
`package_name` when the latter is not the sentinel `"-"`, and
`app/main.py` is hoisted to the root with `app` deleted recursively when
it is — never both, never neither. -/
theorem C2_restructure_exclusive (c : Choices) (st st' : St)
    (h : restructure c st = .ok st') :
    (c.package_name ≠ "-" → st'.trace = st.trace ++ renameEvs c) ∧
    (c.package_name = "-" → st'.trace = st.trace ++ hoistEvs) ∧
    Xor' (st'.trace = st.trace ++ renameEvs c)
      (st'.trace = st.trace ++ hoistEvs) := by
  have ht := restructure_ok_trace h
  have hne : ∀ st0 : St, ¬(st0.trace ++ renameEvs c = st0.trace ++ hoistEvs) := by
    intro st0 he
    have hl := congrArg List.length (List.append_cancel_left he)
    simp [renameEvs, hoistEvs] at hl
  by_cases hpn : c.package_name = "-"
  · rw [if_pos hpn] at ht
    refine ⟨fun hc => absurd hpn hc, fun _ => ht, Or.inr ⟨ht, ?_⟩⟩
    intro hr
    exact hne st (hr.symm.trans ht)
  · rw [if_neg hpn] at ht
    refine ⟨fun _ => ht, fun hc => absurd hc hpn, Or.inl ⟨ht, ?_⟩⟩
    intro hr
    exact hne st (ht.symm.trans hr)

theorem C2_witness :
    restructure ⟨"N", "pkg", "", "A", "E", "", "", "MIT", false, "proj"⟩
        ⟨[(["app"], .dir)], [], .original⟩ =
      .ok ⟨[(["pkg"], .dir)], [Ev.rename ["app"] ["pkg"]], .original⟩ ∧
    (("pkg" : String) ≠ "-" →
      ([Ev.rename ["app"] ["pkg"]] : List Ev) =
        [] ++ renameEvs ⟨"N", "pkg", "", "A", "E", "", "", "MIT", false, "proj"⟩) ∧
    (("pkg" : String) = "-" → ([Ev.rename ["app"] ["pkg"]] : List Ev) = [] ++ hoistEvs) ∧
    Xor' (([Ev.rename ["app"] ["pkg"]] : List Ev) =
        [] ++ renameEvs ⟨"N", "pkg", "", "A", "E", "", "", "MIT", false, "proj"⟩)
      (([Ev.rename ["app"] ["pkg"]] : List Ev) = [] ++ hoistEvs) :=
  ⟨rfl,
    C2_restructure_exclusive ⟨"N", "pkg", "", "A", "E", "", "", "MIT", false, "proj"⟩
      ⟨[(["app"], .dir)], [], .original⟩
      ⟨[(["pkg"], .dir)], [Ev.rename ["app"] ["pkg"]], .original⟩ rfl⟩

/-- C3: the license-emission step writes `LICENSE.txt` at the project
root, rendered from the license identifier with the author and year, if
and only if the chosen license is not the sentinel `"None"`; with the
sentinel the step is skipped entirely and changes nothing. -/
theorem C3_license_iff_not_none (c : Choices)
    (lr : String → String → Nat → String) (y : Nat) (st : St) :
    (c.license = "None" → emit_license c lr y st = .ok st) ∧
    (c.license ≠ "None" → ∀ st', emit_license c lr y st = .ok st' →
      fsFind st'.fs ["LICENSE.txt"] = some (.file (lr c.license c.author y)) ∧
      ∀ p, p ≠ ["LICENSE.txt"] → fsFind st'.fs p = fsFind st.fs p) := by
  constructor
  · intro hl
    unfold emit_license
    simp [hl]
  · intro hl st' h
    unfold emit_license at h
    rw [if_pos hl] at h
    obtain ⟨hfs, -, -⟩ := stWrite_ok h
    rw [hfs]
    exact ⟨fsFind_insert_self _ _ _, fun p hp => fsFind_insert_ne _ _ _ _ hp⟩

theorem C3_witness :
    ((⟨"N", "pkg", "", "Ann", "E", "", "", "MIT", false, "proj"⟩ : Choices).license = "None" →
      emit_license ⟨"N", "pkg", "", "Ann", "E", "", "", "MIT", false, "proj"⟩
        (fun l a y => l ++ a ++ toString y) 2024 ⟨[], [], .original⟩ =
        .ok ⟨[], [], .original⟩) ∧
    ((⟨"N", "pkg", "", "Ann", "E", "", "", "MIT", false, "proj"⟩ : Choices).license ≠ "None" →
      ∀ st', emit_license ⟨"N", "pkg", "", "Ann", "E", "", "", "MIT", false, "proj"⟩
          (fun l a y => l ++ a ++ toString y) 2024 ⟨[], [], .original⟩ = .ok st' →
        fsFind st'.fs ["LICENSE.txt"] = some (.file ("MIT" ++ "Ann" ++ toString 2024)) ∧
        ∀ p, p ≠ ["LICENSE.txt"] →
          fsFind st'.fs p = fsFind (⟨[], [], .original⟩ : St).fs p) :=
  C3_license_iff_not_none _ _ 2024 _

/-- C4 counterexample: a run with `options.test = false` whose generated
tree contains no `tests` directory does not complete successfully — the
unconditional `shutil.rmtree` raises `FileNotFoundError`, which the
`except OSError` handler turns into `sys.exit(OS_ERROR)`.  Here the
custom template source provides only `app/` and `app/main.py`, the
default source is disabled, and the run aborts. -/
theorem C4_counterexample :
    exitCodeOfR (generate_template ⟨false, "A", "E", "MIT"⟩
        ⟨"N", "pkg", "", "A", "E", "", "", "None", false, "proj"⟩
        ⟨false, false, true, false⟩ [] [] (fun _ => "")
        (some ⟨[(["app"], .dir), (["app", "main.py"], .file "m")],
          [["app"], ["app", "main.py"]], fun _ => ""⟩)
        (fun _ _ _ => "") 2024 ⟨[], [], .original⟩) =
      some .OS_ERROR := by
  rfl

/-- C4 amended: when the `test` option is false the tests folder is
deleted recursively when it is present, but its absence IS an error: the
`shutil.rmtree` call fails with `FileNotFoundError` and the run aborts
with the `OS_ERROR` exit code (the claim said absence is tolerated). -/
theorem C4_no_tests_dir_aborts (opts : Options) (st : St)
    (hb : opts.test = false) :
    (fsIsDir st.fs ["tests"] = true →
      isOkE (remove_tests opts st) = true ∧
      ∀ st', remove_tests opts st = .ok st' →
        ∀ p, isUnder p ["tests"] = true → fsFind st'.fs p = none) ∧
    (fsExists st.fs ["tests"] = false →
      remove_tests opts st = .error .fileNotFound) ∧
    toFailure .fileNotFound = .exited .OS_ERROR := by
  refine ⟨?_, ?_, rfl⟩
  · intro hd
    have hex := fsExists_of_isDir hd
    constructor
    · unfold remove_tests stRmtree
      simp [hb, hex, hd, isOkE]
    · intro st' h p hp
      unfold remove_tests at h
      rw [if_pos (by simp [hb])] at h
      rw [(stRmtree_ok h).1]
      exact fsFind_removeTree_none hp
  · intro hex
    unfold remove_tests stRmtree
    simp [hb, hex]

theorem C4_witness :
    (⟨false, false, true, false⟩ : Options).test = false ∧
    ((fsIsDir (⟨[(["tests"], .dir), (["tests", "t.py"], .file "t")], [], .original⟩ : St).fs
        ["tests"] = true →
      isOkE (remove_tests ⟨false, false, true, false⟩
        ⟨[(["tests"], .dir), (["tests", "t.py"], .file "t")], [], .original⟩) = true ∧
      ∀ st', remove_tests ⟨false, false, true, false⟩
          ⟨[(["tests"], .dir), (["tests", "t.py"], .file "t")], [], .original⟩ = .ok st' →
        ∀ p, isUnder p ["tests"] = true → fsFind st'.fs p = none) ∧
    (fsExists (⟨[(["tests"], .dir), (["tests", "t.py"], .file "t")], [], .original⟩ : St).fs
        ["tests"] = false →
      remove_tests ⟨false, false, true, false⟩
        ⟨[(["tests"], .dir), (["tests", "t.py"], .file "t")], [], .original⟩ =
        .error .fileNotFound) ∧
    toFailure .fileNotFound = .exited .OS_ERROR) :=
  ⟨rfl, C4_no_tests_dir_aborts ⟨false, false, true, false⟩
    ⟨[(["tests"], .dir), (["tests", "t.py"], .file "t")], [], .original⟩ rfl⟩

/-- C5: `copy_files` processes the enumerated entries in order; after a
successful pass, an entry that is the last writer of its destination is
found there with exactly the node the claim prescribes, where the
prescription is: a directory entry becomes a directory under its own
path, a `.jinja` entry becomes the rendered text under the
suffix-stripped name, and any other entry is copied verbatim under its
unchanged name. -/
theorem C5_copy_classification (tmpl : FS) (render : RPath → String)
    (l1 l2 : List RPath) (f : RPath) (st st' : St)
    (h : copy_files tmpl render (l1 ++ f :: l2) st = .ok st')
    (hl : ∀ g ∈ l2, copyDest tmpl g ≠ copyDest tmpl f) :
    fsFind st'.fs (copyDest tmpl f) = some (copyProduct tmpl render f) ∧
    (fsIsDir tmpl f = true →
      copyDest tmpl f = f ∧ copyProduct tmpl render f = .dir) ∧
    (fsIsDir tmpl f = false → pySuffix (lastSeg f) = ".jinja" →
      copyDest tmpl f = stripJinja f ∧
      copyProduct tmpl render f = .file (render f)) ∧
    (fsIsDir tmpl f = false → pySuffix (lastSeg f) ≠ ".jinja" →
      copyDest tmpl f = f ∧
      copyProduct tmpl render f = .file (tmplContent tmpl f)) := by
  refine ⟨copy_files_lookup h hl, ?_, ?_, ?_⟩
  · intro hd
    simp [copyDest, copyProduct, hd]
  · intro hd hj
    simp [copyDest, copyProduct, hd, hj]
  · intro hd hj
    simp [copyDest, copyProduct, hd, hj]

/-- Fixture template source for the C5 witness. -/
def wTmpl : FS :=
  [(["app"], .dir), (["app", "main.py"], .file "m"),
    (["README.md.jinja"], .file "# T")]

/-- Fixture renderer for the C5 witness. -/
def wRender : RPath → String := fun _ => "rendered"

/-- Fixture result state for the C5 witness. -/
def wOut : St :=
  ⟨[(["app"], .dir), (["app", "main.py"], .file "m"),
      (["README.md"], .file "rendered")],
    [Ev.mkdir ["app"], Ev.write ["app", "main.py"], Ev.write ["README.md"]],
    .original⟩

theorem C5_witness :
    copy_files wTmpl wRender
        ([["app"], ["app", "main.py"]] ++ ["README.md.jinja"] :: [])
        ⟨[], [], .original⟩ = .ok wOut ∧
    (∀ g ∈ ([] : List RPath),
      copyDest wTmpl g ≠ copyDest wTmpl ["README.md.jinja"]) ∧
    fsFind wOut.fs (copyDest wTmpl ["README.md.jinja"]) =
      some (copyProduct wTmpl wRender ["README.md.jinja"]) :=
  ⟨rfl, by simp,
    (C5_copy_classification wTmpl wRender
      [["app"], ["app", "main.py"]] [] ["README.md.jinja"]
      ⟨[], [], .original⟩ wOut rfl (by simp)).1⟩

/-- C6 counterexample.  First part: with `settings.use_default_template`
false, the built-in default source (here containing `README.md`) is not
applied at all — the run succeeds on the custom source alone and the
output lacks `README.md` — refuting "the default source is always
applied".  Second part: when the custom source shares a directory entry
(`app`) with the default source, `Path.mkdir` raises `FileExistsError`
and the run aborts with `OS_ERROR` — directories do not merge. -/
theorem C6_counterexample :
    (generate_template ⟨false, "A", "E", "MIT"⟩
        ⟨"N", "pkg", "", "A", "E", "", "", "None", false, "proj"⟩
        ⟨true, false, true, false⟩
        [(["README.md"], .file "hi")] [["README.md"]] (fun _ => "")
        (some ⟨[(["app"], .dir), (["app", "main.py"], .file "m")],
          [["app"], ["app", "main.py"]], fun _ => ""⟩)
        (fun _ _ _ => "") 2024 ⟨[], [], .original⟩ =
      .ok ⟨[(["pkg"], .dir), (["pkg", "main.py"], .file "m")],
        [Ev.mkdir ["app"], Ev.write ["app", "main.py"],
          Ev.rename ["app"] ["pkg"]], .original⟩) ∧
    fsFind ([(["pkg"], .dir), (["pkg", "main.py"], .file "m")] : FS)
      ["README.md"] = none ∧
    exitCodeOfR (generate_template ⟨true, "A", "E", "MIT"⟩
        ⟨"N", "pkg", "", "A", "E", "", "", "None", false, "proj"⟩
        ⟨true, false, true, false⟩
        [(["app"], .dir)] [["app"]] (fun _ => "")
        (some ⟨[(["app"], .dir)], [["app"]], fun _ => ""⟩)
        (fun _ _ _ => "") 2024 ⟨[], [], .original⟩) =
      some .OS_ERROR :=
  ⟨rfl, rfl, rfl⟩

/-- C6 amended: the default source is applied only when
`settings.use_default_template` is true (otherwise it is ignored
entirely); the custom source is applied afterward, and a custom file
entry that is the last writer of a destination overwrites whatever the
default source put there (last-writer-wins); but a custom directory
entry whose destination already exists makes the copy fail with
`FileExistsError` — directories do not merge. -/
theorem C6_compose_last_writer_wins :
    (∀ (s : Settings) (c : Choices) (opts : Options) (tA : FS)
        (lA : List RPath) (rA : RPath → String) (tB : FS) (lB : List RPath)
        (rB : RPath → String) (custom : Option CustomSrc)
        (lic : String → String → Nat → String) (y : Nat) (st : St),
      s.use_default_template = false →
      generate_template s c opts tA lA rA custom lic y st =
        generate_template s c opts tB lB rB custom lic y st) ∧
    (∀ (tA cfsC : FS) (rA rC : RPath → String) (lA l1 l2 : List RPath)
        (f : RPath) (st st1 st2 : St),
      copy_files tA rA lA st = .ok st1 →
      copy_files cfsC rC (l1 ++ f :: l2) st1 = .ok st2 →
      (∀ g ∈ l2, copyDest cfsC g ≠ copyDest cfsC f) →
      fsFind st2.fs (copyDest cfsC f) = some (copyProduct cfsC rC f)) ∧
    (∀ (cfsC : FS) (rC : RPath → String) (p : RPath) (rest : List RPath)
        (st : St),
      fsExists st.fs p = true → fsIsDir cfsC p = true →
      copy_files cfsC rC (p :: rest) st = .error .fileExists) := by
  refine ⟨?_, ?_, ?_⟩
  · intro s c opts tA lA rA tB lB rB custom lic y st h
    simp [generate_template, h]
  · intro tA cfsC rA rC lA l1 l2 f st st1 st2 h1 h2 hl
    exact copy_files_lookup h2 hl
  · intro cfsC rC p rest st hex hd
    simp [copy_files, copy_one, stMkdir, hex, hd]

theorem C6_witness :
    (generate_template ⟨false, "A", "E", "MIT"⟩
        ⟨"N", "pkg", "", "A", "E", "", "", "None", false, "proj"⟩
        ⟨true, false, true, false⟩
        [(["README.md"], .file "hi")] [["README.md"]] (fun _ => "x")
        none (fun _ _ _ => "") 2024 ⟨[], [], .original⟩ =
      generate_template ⟨false, "A", "E", "MIT"⟩
        ⟨"N", "pkg", "", "A", "E", "", "", "None", false, "proj"⟩
        ⟨true, false, true, false⟩
        [] [] (fun _ => "y") none (fun _ _ _ => "") 2024 ⟨[], [], .original⟩) ∧
    fsFind (⟨[(["README.md"], .file "custom")],
        [Ev.write ["README.md"], Ev.write ["README.md"]], .original⟩ : St).fs
      (copyDest [(["README.md"], .file "custom")] ["README.md"]) =
      some (copyProduct [(["README.md"], .file "custom")]
        (fun _ => "z") ["README.md"]) ∧
    copy_files [(["app"], .dir)] (fun _ => "w") ([["app"]] ++ [])
        ⟨[(["app"], .dir)], [Ev.mkdir ["app"]], .original⟩ =
      .error .fileExists :=
  ⟨C6_compose_last_writer_wins.1 ⟨false, "A", "E", "MIT"⟩
      ⟨"N", "pkg", "", "A", "E", "", "", "None", false, "proj"⟩
      ⟨true, false, true, false⟩
      [(["README.md"], .file "hi")] [["README.md"]] (fun _ => "x")
      [] [] (fun _ => "y") none (fun _ _ _ => "") 2024 ⟨[], [], .original⟩ rfl,
    C6_compose_last_writer_wins.2.1
      [(["README.md"], .file "default")] [(["README.md"], .file "custom")]
      (fun _ => "r") (fun _ => "z") [["README.md"]] [] [] ["README.md"]
      ⟨[], [], .original⟩
      ⟨[(["README.md"], .file "default")], [Ev.write ["README.md"]], .original⟩
      ⟨[(["README.md"], .file "custom")],
        [Ev.write ["README.md"], Ev.write ["README.md"]], .original⟩
      rfl rfl (by simp),
    C6_compose_last_writer_wins.2.2 [(["app"], .dir)] (fun _ => "w")
      ["app"] [] ⟨[(["app"], .dir)], [Ev.mkdir ["app"]], .original⟩ rfl rfl⟩

/-- C7 counterexample: when the configured custom template source's root
does not exist (`custom = none`, the `custom_template_dir.exists()` check
is false), the run raises no failure at all — it completes successfully
using only the default source, instead of failing with a
`SourceUnavailable` condition as the claim states. -/
theorem C7_counterexample :
    generate_template ⟨true, "A", "E", "MIT"⟩
        ⟨"N", "pkg", "", "A", "E", "", "", "None", false, "proj"⟩
        ⟨true, false, true, false⟩
        [(["app"], .dir), (["app", "main.py"], .file "m")]
        [["app"], ["app", "main.py"]] (fun _ => "")
        none (fun _ _ _ => "") 2024 ⟨[], [], .original⟩ =
      .ok ⟨[(["pkg"], .dir), (["pkg", "main.py"], .file "m")],
        [Ev.mkdir ["app"], Ev.write ["app", "main.py"],
          Ev.rename ["app"] ["pkg"]], .original⟩ :=
  rfl

/-- C7 amended: a missing custom template source is silently skipped —
the run behaves exactly as if an existing custom source with no entries
had been supplied; no error condition of any kind is raised for it. -/
theorem C7_missing_custom_is_silently_skipped
    (s : Settings) (c : Choices) (opts : Options) (tmplFS : FS)
    (tmplList : List RPath) (renderD : RPath → String)
    (lic : String → String → Nat → String) (y : Nat) (st : St)
    (cfsX : FS) (rX : RPath → String) :
    generate_template s c opts tmplFS tmplList renderD none lic y st =
      generate_template s c opts tmplFS tmplList renderD
        (some ⟨cfsX, [], rX⟩) lic y st := by
  simp [generate_template, copy_files, liftE, bind, Except.bind, pure, Except.pure]

/-- C8 counterexample: the acceptance loop checks only
`re.search(r"[- .]", name)`, so the answer `"a/b"`, which contains a path
separator but no dash, dot or space, is accepted (here PyPI reports the
name as free) — refuting "no path separators". -/
theorem C8_counterexample :
    get_sanitized_package_name (fun _ => false) [⟨"a/b", false⟩] =
        some ("a/b", false) ∧
    '/' ∈ "a/b".toList :=
  ⟨rfl, by decide⟩

/-- C8 amended: every package name the acquisition loop accepts is either
the standalone sentinel `"-"` or a string containing no dashes, dots or
spaces; path separators are NOT excluded by the loop. -/
theorem C8_accepted_names_sanitized (pypi : String → Bool)
    (rs : List PkgResp) (n : String) (b : Bool)
    (h : get_sanitized_package_name pypi rs = some (n, b)) :
    n = "-" ∨ ∀ ch ∈ n.toList, ch ≠ '-' ∧ ch ≠ '.' ∧ ch ≠ ' ' := by
  induction rs with
  | nil => cases h
  | cons r rest ih =>
      unfold get_sanitized_package_name at h
      split at h
      · rename_i hbeq
        cases h
        exact Or.inl (by simpa using hbeq)
      · split at h
        · rename_i hgood
          have hchars : ∀ ch ∈ r.name.toList, ch ≠ '-' ∧ ch ≠ '.' ∧ ch ≠ ' ' := by
            have hfc : hasForbiddenChar r.name = false := by
              simpa using hgood
            intro ch hch
            have := List.any_eq_false.mp hfc ch hch
            simp only [Bool.or_eq_true, beq_iff_eq] at this
            push_neg at this
            exact ⟨this.1.1, this.1.2, this.2⟩
          split at h
          · split at h
            · cases h
              exact Or.inr hchars
            · exact ih h
          · cases h
            exact Or.inr hchars
        · exact ih h

theorem C8_witness :
    get_sanitized_package_name (fun _ => false) [⟨"good_name", false⟩] =
        some ("good_name", false) ∧
    (("good_name" : String) = "-" ∨
      ∀ ch ∈ ("good_name" : String).toList, ch ≠ '-' ∧ ch ≠ '.' ∧ ch ≠ ' ') :=
  ⟨rfl, C8_accepted_names_sanitized (fun _ => false) [⟨"good_name", false⟩]
    "good_name" false rfl⟩

/-- C9: during root-directory creation a pre-existing-directory failure
exits with `DIRECTORY_EXISTS` and a permission failure with
`PERMISSION_DENIED`; the three codes `DIRECTORY_EXISTS`,
`PERMISSION_DENIED` and `FOLDER_NOT_EMPTY` are pairwise distinct; the
creation step is a no-op when the location is `"."`; and both failures
abort the entire run. -/
theorem C9_create_folders_exit_codes :
    (∀ loc, loc ≠ "." →
      create_folders loc .alreadyExists = .error (.exited .DIRECTORY_EXISTS)) ∧
    (∀ loc, loc ≠ "." →
      create_folders loc .permissionDenied = .error (.exited .PERMISSION_DENIED)) ∧
    (ExitErrors.DIRECTORY_EXISTS ≠ ExitErrors.PERMISSION_DENIED ∧
      ExitErrors.DIRECTORY_EXISTS ≠ ExitErrors.FOLDER_NOT_EMPTY ∧
      ExitErrors.PERMISSION_DENIED ≠ ExitErrors.FOLDER_NOT_EMPTY) ∧
    (∀ o, create_folders "." o = .ok ()) ∧
    (∀ env : RunEnv, env.loc ≠ "." → env.opts.accept_defaults = true →
      env.mkdirOutcome = .alreadyExists →
      run env none = (some (.exited .DIRECTORY_EXISTS), ⟨[], [], .original⟩)) ∧
    (∀ env : RunEnv, env.loc ≠ "." → env.opts.accept_defaults = true →
      env.mkdirOutcome = .permissionDenied →
      run env none = (some (.exited .PERMISSION_DENIED), ⟨[], [], .original⟩)) := by
  refine ⟨?_, ?_, by decide, ?_, ?_, ?_⟩
  · intro loc h
    simp [create_folders, h]
  · intro loc h
    simp [create_folders, h]
  · intro o
    simp [create_folders]
  · intro env hl ha hm
    simp [run, resolveChoices, create_folders, hl, ha, hm]
  · intro env hl ha hm
    simp [run, resolveChoices, create_folders, hl, ha, hm]

theorem C9_witness :
    (("proj" : String) ≠ "." ∧
      create_folders "proj" .alreadyExists = .error (.exited .DIRECTORY_EXISTS)) ∧
    create_folders "proj" .permissionDenied = .error (.exited .PERMISSION_DENIED) ∧
    create_folders "." .permissionDenied = .ok () ∧
    run { sampleEnv with mkdirOutcome := .alreadyExists } none =
      (some (.exited .DIRECTORY_EXISTS), ⟨[], [], .original⟩) ∧
    run { sampleEnv with mkdirOutcome := .permissionDenied } none =
      (some (.exited .PERMISSION_DENIED), ⟨[], [], .original⟩) :=
  ⟨⟨by decide, C9_create_folders_exit_codes.1 "proj" (by decide)⟩,
    C9_create_folders_exit_codes.2.1 "proj" (by decide),
    C9_create_folders_exit_codes.2.2.2.1 .permissionDenied,
    C9_create_folders_exit_codes.2.2.2.2.1
      { sampleEnv with mkdirOutcome := .alreadyExists } (by decide) rfl rfl,
    C9_create_folders_exit_codes.2.2.2.2.2
      { sampleEnv with mkdirOutcome := .permissionDenied } (by decide) rfl rfl⟩

theorem cwdPres_create_git_repo (opts : Options) (gitOk : Bool) :
    CwdPres (create_git_repo opts gitOk) := by
  intro st st' hc h
  unfold create_git_repo at h
  split at h
  · split at h
    · cases h
      refine ⟨hc, [Ev.gitInit st.cwd], rfl, ?_⟩
      intro e he
      simp only [List.mem_singleton] at he
      subst he
      exact ⟨rfl, Or.inr (by simp [evCwd, hc])⟩
    · exact absurd h (by simp)
  · cases h
    exact ⟨hc, [], by simp, by simp⟩

/-- C10: when the dependency-install step runs (defaults accepted or the
user confirms), the tail of the run changes the working directory to the
project directory and never changes it back: every later event is either
untagged or tagged with the project directory, and no further chdir
occurs — so the documentation bootstrap, the pre-commit installation and
the repository initialization all execute in the project directory. -/
theorem C10_chdir_never_restored (opts : Options) (ci cp : Bool)
    (procOk : String → Bool) (gitOk : Bool) (mkdocs : String) (st st' : St)
    (hcond : (opts.accept_defaults || ci) = true)
    (h : run_finish opts ci cp procOk gitOk mkdocs st = .ok st') :
    st'.cwd = Cwd.project ∧
    ∃ evs, st'.trace = st.trace ++ Ev.chdir Cwd.project :: evs ∧
      ∀ e ∈ evs, isChdirEv e = false ∧
        (evCwd e = none ∨ evCwd e = some Cwd.project) := by
  unfold run_finish at h
  rw [if_pos hcond] at h
  simp only [bind, Except.bind] at h
  cases e1 : install_steps opts cp procOk mkdocs (stChdir .project st) with
  | error f => rw [e1] at h; cases h
  | ok st1 =>
      rw [e1] at h
      obtain ⟨hc1, evs1, ht1, hg1⟩ :=
        cwdPres_install_steps opts cp procOk mkdocs _ _ (by simp [stChdir]) e1
      obtain ⟨hc2, evs2, ht2, hg2⟩ :=
        cwdPres_create_git_repo opts gitOk st1 st' hc1 h
      refine ⟨hc2, evs1 ++ evs2, ?_, ?_⟩
      · rw [ht2, ht1]
        simp [stChdir]
      · intro e he
        rcases List.mem_append.mp he with hm | hm
        · exact hg1 e hm
        · exact hg2 e hm

theorem C10_witness :
    ((⟨true, true, true, true⟩ : Options).accept_defaults || true) = true ∧
    run_finish ⟨true, true, true, true⟩ true true (fun _ => true) true "cfg"
        ⟨[], [], .original⟩ =
      .ok ⟨[(["mkdocs.yml"], .file "cfg")],
        [Ev.chdir .project, Ev.proc "poetry install" .project,
          Ev.proc "poetry run mkdocs new ." .project, Ev.write ["mkdocs.yml"],
          Ev.proc "poetry run pre-commit install" .project,
          Ev.proc "poetry run pre-commit autoupdate" .project,
          Ev.gitInit .project], .project⟩ ∧
    ((⟨[(["mkdocs.yml"], .file "cfg")],
        [Ev.chdir .project, Ev.proc "poetry install" .project,
          Ev.proc "poetry run mkdocs new ." .project, Ev.write ["mkdocs.yml"],
          Ev.proc "poetry run pre-commit install" .project,
          Ev.proc "poetry run pre-commit autoupdate" .project,
          Ev.gitInit .project], .project⟩ : St).cwd = Cwd.project ∧
      ∃ evs, (⟨[(["mkdocs.yml"], .file "cfg")],
        [Ev.chdir .project, Ev.proc "poetry install" .project,
          Ev.proc "poetry run mkdocs new ." .project, Ev.write ["mkdocs.yml"],
          Ev.proc "poetry run pre-commit install" .project,
          Ev.proc "poetry run pre-commit autoupdate" .project,
          Ev.gitInit .project], .project⟩ : St).trace =
          (⟨[], [], .original⟩ : St).trace ++ Ev.chdir Cwd.project :: evs ∧
        ∀ e ∈ evs, isChdirEv e = false ∧
          (evCwd e = none ∨ evCwd e = some Cwd.project)) :=
  ⟨rfl, rfl,
    C10_chdir_never_restored ⟨true, true, true, true⟩ true true
      (fun _ => true) true "cfg" ⟨[], [], .original⟩
      ⟨[(["mkdocs.yml"], .file "cfg")],
        [Ev.chdir .project, Ev.proc "poetry install" .project,
          Ev.proc "poetry run mkdocs new ." .project, Ev.write ["mkdocs.yml"],
          Ev.proc "poetry run pre-commit install" .project,
          Ev.proc "poetry run pre-commit autoupdate" .project,
          Ev.gitInit .project], .project⟩ rfl rfl⟩

end PyMakerModel
